import Mathlib

/-!
Shallow embedding of the streaming playback scheduler of `utils/LiveMusicHelper.ts`
(class `LiveMusicHelper`).

The class is single-threaded and event-driven: every public method mutates the
object's fields and performs externally visible actions (DOM events, Web Audio
automation calls, Session commands, `setTimeout`/`clearTimeout`).  We embed it as a
pure state machine: a `Model` record holds the mutable fields, and each method is a
function `... → Model → Model × List Effect` where the `Effect` list records, in
program order, every externally visible action the method performs.

Times (`audioContext.currentTime`, buffer durations) are rationals; the current
clock time is passed in as the `now` argument at each call, mirroring reads of
`this.audioContext.currentTime`.  `setTimeout` is modelled by appending a
`PendingTimer` (id, absolute fire time, deferred action) to a timer list; browser
timer ids are positive integers, so the JS truthiness test
`if (this.fadeOutTimeoutId)` is faithfully an `Option` match (ids start at 1 and
`null` is `none`).  Decoding (`decode`/`decodeAudioData`, external to the core) is
abstracted by a duration function `AudioChunk → ℚ`.  The `throttle` wrapper around
`setWeightedPrompts` is pure call-coalescing glue; the function below is the body
that runs on each executed invocation.
-/

/-- `type PlaybackState = 'stopped' | 'playing' | 'loading' | 'paused'` from `types.ts`. -/
inductive PlaybackState
  | stopped
  | loading
  | playing
  | paused
deriving DecidableEq, Repr

/-- The fields of `Prompt` that `LiveMusicHelper` reads (`text`, `weight`; the id is
kept for uniqueness of prompts). -/
structure Prompt where
  promptId : String
  text : String
  weight : ℚ
deriving DecidableEq, Repr

/-- `AudioChunk`: opaque payload with a `data` field. -/
structure AudioChunk where
  data : String
deriving DecidableEq, Repr

/-- The gain/filter nodes of the render graph owned by `LiveMusicHelper`. -/
inductive NodeId
  | outputNode
  | masterGainNode
  | highShelfFilter
deriving DecidableEq, Repr

/-- The three kinds of deferred closures the class hands to `setTimeout`:
the buffer-horizon promotion in `processAudioChunks`, and the `cleanup` closures of
`pause` and `stop`. -/
inductive TimerAction
  | bufferPromotion
  | pauseCleanup
  | stopCleanup
deriving DecidableEq, Repr

/-- A pending `setTimeout`: its id, its absolute fire time (seconds on the audio
clock used for `now`), and the deferred action. -/
structure PendingTimer where
  id : Nat
  fireAt : ℚ
  action : TimerAction
deriving DecidableEq, Repr

/-- Externally visible actions, in program order. -/
inductive Effect
  | stateChanged (s : PlaybackState)            -- dispatchEvent('playback-state-changed')
  | errorEvent (msg : String)                   -- dispatchEvent('error')
  | errorCleared (msg : String)                 -- dispatchEvent('error-cleared')
  | sessionPlay                                 -- session.play()
  | sessionPause                                -- session.pause()
  | sessionStop                                 -- session.stop()
  | sessionSetPrompts (ps : List Prompt)        -- session.setWeightedPrompts(...)
  | sourceStart (t : ℚ) (dur : ℚ)               -- source.start(t) with buffer duration dur
  | armTimeout (id : Nat) (delayMs : ℚ)         -- setTimeout(..., delayMs)
  | cancelTimeout (id : Nat)                    -- clearTimeout(id)
  | cancelScheduledValues (n : NodeId) (t : ℚ)
  | setValueAtTime (n : NodeId) (v : ℚ) (t : ℚ)
  | setValueAtCurrent (n : NodeId) (t : ℚ)      -- setValueAtTime(node.gain.value, t)
  | linearRampToValueAtTime (n : NodeId) (v : ℚ) (t : ℚ)
  | resumeContext                               -- audioContext.resume()
deriving DecidableEq, Repr

/-- The mutable fields of `LiveMusicHelper` that the scheduler logic reads or
writes.  `sessionExists` models `this.session !== null`; `timers` and
`nextTimerId` model the outstanding `setTimeout`s of the event loop. -/
structure Model where
  playbackState : PlaybackState
  nextStartTime : ℚ
  bufferTime : ℚ
  fadeEnabled : Bool
  filteredPrompts : List String
  sessionExists : Bool
  fadeOutTimeoutId : Option Nat
  timers : List PendingTimer
  nextTimerId : Nat
deriving DecidableEq, Repr

namespace LiveMusicHelper

/-- `const NO_ACTIVE_PROMPTS_ERROR = 'There needs to be one active prompt to play.'` -/
def NO_ACTIVE_PROMPTS_ERROR : String := "There needs to be one active prompt to play."

/-- `private readonly FADE_DURATION = 5; // in seconds` -/
def FADE_DURATION : ℚ := 5

/-- Field values set by the constructor (`nextStartTime = 0`, `bufferTime = 2`,
`fadeEnabled = false`, no session, no pending fade-out, state `'stopped'`).
Timer ids start at 1 because browser `setTimeout` ids are positive. -/
def init : Model :=
  { playbackState := .stopped
    nextStartTime := 0
    bufferTime := 2
    fadeEnabled := false
    filteredPrompts := []
    sessionExists := false
    fadeOutTimeoutId := none
    timers := []
    nextTimerId := 1 }

/-- `private setPlaybackState(state)`: assign the field and dispatch
`'playback-state-changed'`. -/
def setPlaybackState (s : PlaybackState) (m : Model) : Model × List Effect :=
  ({ m with playbackState := s }, [Effect.stateChanged s])

/-- `window.setTimeout(action, delaySeconds * 1000)`: allocate a fresh id and record
the pending timer; returns the id as `setTimeout` does. -/
def armTimer (a : TimerAction) (delaySeconds now : ℚ) (m : Model) :
    Model × Nat × List Effect :=
  ({ m with
      timers := m.timers ++ [⟨m.nextTimerId, now + delaySeconds, a⟩]
      nextTimerId := m.nextTimerId + 1 },
   m.nextTimerId, [Effect.armTimeout m.nextTimerId (delaySeconds * 1000)])

/-- `clearTimeout(id)`: the pending timer with that id, if any, never fires. -/
def clearTimer (id : Nat) (m : Model) : Model × List Effect :=
  ({ m with timers := m.timers.filter (fun t => t.id ≠ id) }, [Effect.cancelTimeout id])

/-- The `cleanup` closure of `pause()`:
`if (this.session) this.session.pause(); this.nextStartTime = 0;
this.fadeOutTimeoutId = null;` -/
def pauseCleanup (m : Model) : Model × List Effect :=
  ({ m with nextStartTime := 0, fadeOutTimeoutId := none },
   if m.sessionExists then [Effect.sessionPause] else [])

/-- The `cleanup` closure of `stop()`:
`if (this.session) this.session.stop(); this.nextStartTime = 0;
this.session = null; this.sessionPromise = null; this.fadeOutTimeoutId = null;` -/
def stopCleanup (m : Model) : Model × List Effect :=
  ({ m with nextStartTime := 0, sessionExists := false, fadeOutTimeoutId := none },
   if m.sessionExists then [Effect.sessionStop] else [])

/-- `public pause()`. -/
def pause (now : ℚ) (m : Model) : Model × List Effect :=
  if m.playbackState = .paused ∨ m.playbackState = .stopped then (m, [])
  else
    let (m1, e1) := setPlaybackState .paused m
    if m1.fadeEnabled then
      let eGain := [Effect.cancelScheduledValues .outputNode now,
                    Effect.setValueAtCurrent .outputNode now,
                    Effect.linearRampToValueAtTime .outputNode (1 / 10000) (now + FADE_DURATION)]
      let (m2, id, e2) := armTimer .pauseCleanup FADE_DURATION now m1
      ({ m2 with fadeOutTimeoutId := some id }, e1 ++ eGain ++ e2)
    else
      let eGain := [Effect.cancelScheduledValues .outputNode now,
                    Effect.setValueAtTime .outputNode 0 now]
      let (m2, e2) := pauseCleanup m1
      (m2, e1 ++ eGain ++ e2)

/-- `public stop()`. -/
def stop (now : ℚ) (m : Model) : Model × List Effect :=
  if m.playbackState = .stopped then (m, [])
  else
    let (m1, e1) := setPlaybackState .stopped m
    if m1.fadeEnabled then
      let eGain := [Effect.cancelScheduledValues .outputNode now,
                    Effect.setValueAtCurrent .outputNode now,
                    Effect.linearRampToValueAtTime .outputNode (1 / 10000) (now + FADE_DURATION)]
      let (m2, id, e2) := armTimer .stopCleanup FADE_DURATION now m1
      ({ m2 with fadeOutTimeoutId := some id }, e1 ++ eGain ++ e2)
    else
      let eGain := [Effect.cancelScheduledValues .outputNode now,
                    Effect.setValueAtTime .outputNode 0 now]
      let (m2, e2) := stopCleanup m1
      (m2, e1 ++ eGain ++ e2)

/-- `private async processAudioChunks(audioChunks)`.  `decodeDuration` abstracts the
external `decodeAudioData(decode(chunk.data), ...)` pipeline, giving the decoded
buffer's duration; `now` is `this.audioContext.currentTime` during this turn.
Returns `none` exactly when the source would crash on `audioChunks[0].data!`
(empty batch reaching the decode line). -/
def processAudioChunks (decodeDuration : AudioChunk → ℚ) (now : ℚ)
    (audioChunks : List AudioChunk) (m : Model) : Option (Model × List Effect) :=
  if m.playbackState = .paused ∨ m.playbackState = .stopped then some (m, [])
  else
    match audioChunks.head? with
    | none => none
    | some chunk =>
      let dur := decodeDuration chunk
      let (m1, e1) :=
        if m.nextStartTime = 0 then
          let mA := { m with nextStartTime := now + m.bufferTime }
          let (mB, _, eT) := armTimer .bufferPromotion m.bufferTime now mA
          (mB, eT)
        else (m, ([] : List Effect))
      if m1.nextStartTime < now then
        let (m2, e2) := setPlaybackState .loading m1
        some ({ m2 with nextStartTime := 0 }, e1 ++ e2)
      else
        some ({ m1 with nextStartTime := m1.nextStartTime + dur },
              e1 ++ [Effect.sourceStart m1.nextStartTime dur])

/-- The body of `public readonly setWeightedPrompts = throttle(async (prompts) => ...)`.
`forwardOk` models whether the external `session.setWeightedPrompts` call resolves
or rejects, and `failMsg` the rejection's `e.message`. -/
def setWeightedPrompts (now : ℚ) (prompts : List Prompt) (forwardOk : Bool)
    (failMsg : String) (m : Model) : Model × List Effect :=
  let activePrompts := prompts.filter (fun p => !(m.filteredPrompts.contains p.text))
  let targetGain : ℚ :=
    if (activePrompts.find? (fun p => p.text = "Dystopian Industrial")).isSome then -18 else 0
  let eTone := [Effect.cancelScheduledValues .highShelfFilter now,
                Effect.linearRampToValueAtTime .highShelfFilter targetGain (now + 1 / 2)]
  if activePrompts.isEmpty then
    let (m1, e1) := pause now m
    (m1, eTone ++ [Effect.errorEvent NO_ACTIVE_PROMPTS_ERROR] ++ e1)
  else
    let eCleared := [Effect.errorCleared NO_ACTIVE_PROMPTS_ERROR]
    if !m.sessionExists then (m, eTone ++ eCleared)
    else if forwardOk then
      (m, eTone ++ eCleared ++ [Effect.sessionSetPrompts activePrompts])
    else
      let (m1, e1) := pause now m
      (m1, eTone ++ eCleared ++
        [Effect.sessionSetPrompts activePrompts, Effect.errorEvent failMsg] ++ e1)

/-- `public async play(activePrompts)`.  Establishing the session
(`this.session = await this.getSession()`) is modelled by `sessionExists := true`. -/
def play (now : ℚ) (prompts : List Prompt) (forwardOk : Bool) (failMsg : String)
    (m : Model) : Model × List Effect :=
  let (m0, e0) :=
    match m.fadeOutTimeoutId with
    | some id =>
      let (mA, eA) := clearTimer id m
      ({ mA with fadeOutTimeoutId := none }, eA)
    | none => (m, ([] : List Effect))
  let (m1, e1) := setPlaybackState .loading m0
  let m2 := { m1 with sessionExists := true }
  let (m3, e3) := setWeightedPrompts now prompts forwardOk failMsg m2
  let eGain :=
    if m3.fadeEnabled then
      [Effect.cancelScheduledValues .outputNode now,
       Effect.setValueAtTime .outputNode (1 / 10000) now,
       Effect.linearRampToValueAtTime .outputNode 1 (now + FADE_DURATION)]
    else
      [Effect.cancelScheduledValues .outputNode now,
       Effect.setValueAtTime .outputNode 1 now]
  (m3, e0 ++ e1 ++ e3 ++ [Effect.resumeContext, Effect.sessionPlay] ++ eGain)

/-- `public async playPause(activePrompts)`: dispatch on the current state. -/
def playPause (now : ℚ) (prompts : List Prompt) (forwardOk : Bool) (failMsg : String)
    (m : Model) : Model × List Effect :=
  match m.playbackState with
  | .playing => pause now m
  | .paused => play now prompts forwardOk failMsg m
  | .stopped => play now prompts forwardOk failMsg m
  | .loading => stop now m

/-- Run one of the deferred closures against the current object state. -/
def runTimerAction (a : TimerAction) (m : Model) : Model × List Effect :=
  match a with
  | .bufferPromotion =>
      -- `if (this.playbackState === 'loading') this.setPlaybackState('playing')`
      if m.playbackState = .loading then setPlaybackState .playing m else (m, [])
  | .pauseCleanup => pauseCleanup m
  | .stopCleanup => stopCleanup m

/-- The event loop fires the pending timer with the given id (a no-op if it was
cleared): the timer is removed and its closure runs against the current state. -/
def fireTimer (id : Nat) (m : Model) : Model × List Effect :=
  match m.timers.find? (fun t => t.id = id) with
  | none => (m, [])
  | some t =>
      runTimerAction t.action { m with timers := m.timers.filter (fun u => u.id ≠ id) }

end LiveMusicHelper

open LiveMusicHelper

/-! ## Theorems -/

/-- C2: a play invocation made while the playback state is `loading` (the play toggle
dispatches through `playPause`, which routes the `loading` case to `stop()`) moves the
state machine to `stopped` and never to any other state: the call is exactly a
`stop()` call, and its resulting state is `stopped`. -/
theorem play_while_loading_goes_to_stopped (m : Model) (now : ℚ)
    (prompts : List Prompt) (forwardOk : Bool) (failMsg : String)
    (h : m.playbackState = .loading) :
    playPause now prompts forwardOk failMsg m = LiveMusicHelper.stop now m
    ∧ (playPause now prompts forwardOk failMsg m).1.playbackState = .stopped := by
  have hne : ¬ m.playbackState = PlaybackState.stopped := by simp [h]
  refine ⟨by simp [playPause, h], ?_⟩
  simp only [playPause, h]
  unfold LiveMusicHelper.stop
  rw [if_neg hne]
  by_cases hf : m.fadeEnabled <;>
    simp [setPlaybackState, armTimer, stopCleanup, hf]

/-- Witness for C2 at a concrete state. -/
theorem play_while_loading_goes_to_stopped_witness :
    (playPause 7 [] true "" { init with playbackState := .loading }).1.playbackState
      = PlaybackState.stopped :=
  (play_while_loading_goes_to_stopped { init with playbackState := .loading } 7 [] true "" rfl).2

/-- C4 counterexample: the claim says `pause()` while `loading` is a no-op that leaves
the state unchanged and emits no notification.  In the code, `pause()` only guards
against the `paused` and `stopped` states, so calling it while `loading` moves the
state to `paused` and does emit a state-changed notification. -/
theorem pause_while_loading_is_not_noop :
    (LiveMusicHelper.pause 10 { init with playbackState := .loading }).1.playbackState
        = PlaybackState.paused
    ∧ (LiveMusicHelper.pause 10 { init with playbackState := .loading }).2
        = [Effect.stateChanged .paused,
           Effect.cancelScheduledValues .outputNode 10,
           Effect.setValueAtTime .outputNode 0 10] := by
  decide

/-- C4 (amended): `stop()` in `loading`, `playing` or `paused` moves the state to
`stopped`; `pause()` in `playing` moves it to `paused`; `pause()` in `loading` also
moves it to `paused` (this combination is NOT a no-op); and the remaining
combinations — `pause()` while already `paused` or while `stopped`, and `stop()`
while already `stopped` — leave the state unchanged and emit no notification. -/
theorem pause_stop_transition_table (m : Model) (now : ℚ) :
    ((m.playbackState = .loading ∨ m.playbackState = .playing ∨ m.playbackState = .paused) →
        (LiveMusicHelper.stop now m).1.playbackState = .stopped)
    ∧ (m.playbackState = .playing → (LiveMusicHelper.pause now m).1.playbackState = .paused)
    ∧ (m.playbackState = .loading → (LiveMusicHelper.pause now m).1.playbackState = .paused)
    ∧ (m.playbackState = .paused → LiveMusicHelper.pause now m = (m, []))
    ∧ (m.playbackState = .stopped → LiveMusicHelper.pause now m = (m, []))
    ∧ (m.playbackState = .stopped → LiveMusicHelper.stop now m = (m, [])) := by
  refine ⟨?_, ?_, ?_, ?_, ?_, ?_⟩
  · rintro (h | h | h) <;>
      (unfold LiveMusicHelper.stop
       rw [if_neg (by simp [h])]
       by_cases hf : m.fadeEnabled <;>
         simp [setPlaybackState, armTimer, stopCleanup, hf])
  · intro h
    unfold LiveMusicHelper.pause
    rw [if_neg (by simp [h])]
    by_cases hf : m.fadeEnabled <;>
      simp [setPlaybackState, armTimer, pauseCleanup, hf]
  · intro h
    unfold LiveMusicHelper.pause
    rw [if_neg (by simp [h])]
    by_cases hf : m.fadeEnabled <;>
      simp [setPlaybackState, armTimer, pauseCleanup, hf]
  · intro h
    unfold LiveMusicHelper.pause
    rw [if_pos (Or.inl h)]
  · intro h
    unfold LiveMusicHelper.pause
    rw [if_pos (Or.inr h)]
  · intro h
    unfold LiveMusicHelper.stop
    rw [if_pos h]

/-- Witness for C4 (amended) at concrete states. -/
theorem pause_stop_transition_table_witness :
    (LiveMusicHelper.stop 3 { init with playbackState := .playing }).1.playbackState
        = PlaybackState.stopped
    ∧ LiveMusicHelper.pause 3 { init with playbackState := .paused }
        = ({ init with playbackState := .paused }, []) :=
  ⟨(pause_stop_transition_table { init with playbackState := .playing } 3).1
      (Or.inr (Or.inl rfl)),
   (pause_stop_transition_table { init with playbackState := .paused } 3).2.2.2.1 rfl⟩

/-- C1: when a decoded buffer arrives while the state is `playing` or `loading` and
the timeline cursor is non-zero but strictly behind the clock (underrun), the
scheduler forces the state to `loading`, resets the cursor to `0`, and discards the
buffer without scheduling it; every other field (in particular the session handle
and the pending timers) is unchanged and no Session command is issued.  The next
late chunk in the same gap is routed to the establishment branch by the zero
cursor: it re-establishes the cursor at `now2 + bufferTime` and schedules, with no
second reset (no state-changed notification). -/
theorem underrun_resets_locally
    (dec : AudioChunk → ℚ) (m : Model) (now now2 : ℚ)
    (c c2 : AudioChunk) (cs cs2 : List AudioChunk)
    (hstate : m.playbackState = .playing ∨ m.playbackState = .loading)
    (hnz : m.nextStartTime ≠ 0)
    (hlate : m.nextStartTime < now)
    (hbuf : 0 ≤ m.bufferTime) :
    processAudioChunks dec now (c :: cs) m
      = some ({ m with playbackState := .loading, nextStartTime := 0 },
              [Effect.stateChanged .loading])
    ∧ processAudioChunks dec now2 (c2 :: cs2)
        { m with playbackState := .loading, nextStartTime := 0 }
      = some ({ m with
                  playbackState := .loading
                  nextStartTime := now2 + m.bufferTime + dec c2
                  timers := m.timers ++ [⟨m.nextTimerId, now2 + m.bufferTime, .bufferPromotion⟩]
                  nextTimerId := m.nextTimerId + 1 },
              [Effect.armTimeout m.nextTimerId (m.bufferTime * 1000),
               Effect.sourceStart (now2 + m.bufferTime) (dec c2)]) := by
  have hguard : ¬ (m.playbackState = PlaybackState.paused
      ∨ m.playbackState = PlaybackState.stopped) := by
    rcases hstate with h | h <;> simp [h]
  have hnl : ¬ (now2 + m.bufferTime < now2) := by linarith
  constructor
  · unfold processAudioChunks
    rw [if_neg hguard]
    simp [hnz, hlate, setPlaybackState]
  · unfold processAudioChunks
    rw [if_neg (by simp)]
    simp [armTimer, hnl]

/-- Witness for C1 at a concrete underrun: cursor `5`, clock `10`, a second chunk
arriving at clock `11`. -/
theorem underrun_resets_locally_witness :
    processAudioChunks (fun _ => 1) 10 [⟨"a"⟩]
        { init with playbackState := .playing, nextStartTime := 5 }
      = some ({ init with playbackState := .loading, nextStartTime := 0 },
              [Effect.stateChanged .loading])
    ∧ processAudioChunks (fun _ => 1) 11 [⟨"b"⟩]
        { init with playbackState := .loading, nextStartTime := 0 }
      = some ({ init with
                  playbackState := .loading
                  nextStartTime := 11 + 2 + 1
                  timers := [⟨1, 11 + 2, .bufferPromotion⟩]
                  nextTimerId := 1 + 1 },
              [Effect.armTimeout 1 (2 * 1000),
               Effect.sourceStart (11 + 2) 1]) :=
  underrun_resets_locally (fun _ => 1)
    { init with playbackState := .playing, nextStartTime := 5 } 10 11
    ⟨"a"⟩ ⟨"b"⟩ [] [] (Or.inl rfl) (by norm_num [init]) (by norm_num [init])
    (by norm_num [init])

/-- C3: with the cursor established at `t0` (non-zero) and no underrun, two buffers
of durations `d1 = dec c1` and `d2 = dec c2` delivered in order while the state is
`loading` or `playing` are scheduled to start exactly at `t0` and exactly at
`t0 + d1`, and each advances the cursor by exactly its own duration. -/
theorem gapless_back_to_back
    (dec : AudioChunk → ℚ) (m : Model) (t0 now1 now2 : ℚ)
    (c1 c2 : AudioChunk) (cs1 cs2 : List AudioChunk)
    (hstate : m.playbackState = .loading ∨ m.playbackState = .playing)
    (ht0 : m.nextStartTime = t0)
    (hpos : 0 < t0)
    (hd1 : 0 < dec c1)
    (h1 : now1 ≤ t0)
    (h2 : now2 ≤ t0 + dec c1) :
    processAudioChunks dec now1 (c1 :: cs1) m
      = some ({ m with nextStartTime := t0 + dec c1 }, [Effect.sourceStart t0 (dec c1)])
    ∧ processAudioChunks dec now2 (c2 :: cs2) { m with nextStartTime := t0 + dec c1 }
      = some ({ m with nextStartTime := t0 + dec c1 + dec c2 },
              [Effect.sourceStart (t0 + dec c1) (dec c2)]) := by
  have hguard : ¬ (m.playbackState = PlaybackState.paused
      ∨ m.playbackState = PlaybackState.stopped) := by
    rcases hstate with h | h <;> simp [h]
  have hnz : ¬ t0 = 0 := ne_of_gt hpos
  have hnz2 : ¬ t0 + dec c1 = 0 := by positivity
  have hno1 : ¬ (t0 < now1) := not_lt.mpr h1
  have hno2 : ¬ (t0 + dec c1 < now2) := not_lt.mpr h2
  constructor
  · unfold processAudioChunks
    rw [if_neg hguard]
    simp [ht0, hnz, hno1]
  · unfold processAudioChunks
    rw [if_neg hguard]
    simp [hnz2, hno2]

/-- Witness for C3: cursor established at `12`, durations `1` and `3/2`, clock at
`10` and then `23/2`. -/
theorem gapless_back_to_back_witness :
    processAudioChunks (fun c => if c.data = "a" then 1 else 3 / 2) 10 [⟨"a"⟩]
        { init with playbackState := .loading, nextStartTime := 12 }
      = some ({ init with playbackState := .loading, nextStartTime := 12 + 1 },
              [Effect.sourceStart 12 1])
    ∧ processAudioChunks (fun c => if c.data = "a" then 1 else 3 / 2) (23 / 2) [⟨"b"⟩]
        { init with playbackState := .loading, nextStartTime := 12 + 1 }
      = some ({ init with playbackState := .loading, nextStartTime := 12 + 1 + 3 / 2 },
              [Effect.sourceStart (12 + 1) (3 / 2)]) := by
  have h := gapless_back_to_back (fun c => if c.data = "a" then 1 else 3 / 2)
    { init with playbackState := .loading, nextStartTime := 12 } 12 10 (23 / 2)
    ⟨"a"⟩ ⟨"b"⟩ [] [] (Or.inl rfl) rfl (by norm_num) (by norm_num) (by norm_num)
    (by norm_num)
  simpa using h

/-- Helper: a `pause()` call never emits an error event and never forwards prompts
to the Session; its effects are state-change, gain automation and timer actions
only. -/
theorem pause_emits_no_error_and_no_forward (now : ℚ) (m : Model) :
    (∀ s, Effect.errorEvent s ∉ (LiveMusicHelper.pause now m).2)
    ∧ (∀ ps, Effect.sessionSetPrompts ps ∉ (LiveMusicHelper.pause now m).2) := by
  unfold LiveMusicHelper.pause
  by_cases hg : m.playbackState = PlaybackState.paused ∨ m.playbackState = PlaybackState.stopped
  · rw [if_pos hg]; simp
  · rw [if_neg hg]
    by_cases hf : m.fadeEnabled <;>
      by_cases hs : m.sessionExists <;>
        simp [setPlaybackState, armTimer, pauseCleanup, hf, hs]

/-- C5: when the active set (input prompts minus the filtered texts) is empty,
`setWeightedPrompts` raises exactly one distinguished "no active prompts" error,
calls `pause()` exactly once (the result is literally the state and effect list of
one `pause()` call, appended after the tone-shaping automation and the error), and
forwards nothing to the Session; and any invocation whose active set is non-empty
emits the paired "cleared" signal carrying the same message. -/
theorem empty_active_set_error_and_pause
    (m : Model) (now : ℚ) (prompts : List Prompt) (forwardOk : Bool) (failMsg : String)
    (hempty : prompts.filter (fun p => !(m.filteredPrompts.contains p.text)) = []) :
    setWeightedPrompts now prompts forwardOk failMsg m
      = ((LiveMusicHelper.pause now m).1,
         [Effect.cancelScheduledValues .highShelfFilter now,
          Effect.linearRampToValueAtTime .highShelfFilter 0 (now + 1 / 2),
          Effect.errorEvent NO_ACTIVE_PROMPTS_ERROR] ++ (LiveMusicHelper.pause now m).2)
    ∧ (setWeightedPrompts now prompts forwardOk failMsg m).2.count
        (Effect.errorEvent NO_ACTIVE_PROMPTS_ERROR) = 1
    ∧ (∀ ps, Effect.sessionSetPrompts ps ∉ (setWeightedPrompts now prompts forwardOk failMsg m).2)
    ∧ (∀ (m2 : Model) (now2 : ℚ) (prompts2 : List Prompt) (fOk2 : Bool) (fMsg2 : String),
        prompts2.filter (fun p => !(m2.filteredPrompts.contains p.text)) ≠ [] →
        Effect.errorCleared NO_ACTIVE_PROMPTS_ERROR
          ∈ (setWeightedPrompts now2 prompts2 fOk2 fMsg2 m2).2) := by
  have hmain : setWeightedPrompts now prompts forwardOk failMsg m
      = ((LiveMusicHelper.pause now m).1,
         [Effect.cancelScheduledValues .highShelfFilter now,
          Effect.linearRampToValueAtTime .highShelfFilter 0 (now + 1 / 2),
          Effect.errorEvent NO_ACTIVE_PROMPTS_ERROR] ++ (LiveMusicHelper.pause now m).2) := by
    unfold setWeightedPrompts
    rw [hempty]
    simp
  refine ⟨hmain, ?_, ?_, ?_⟩
  · rw [hmain]
    have hno := (pause_emits_no_error_and_no_forward now m).1 NO_ACTIVE_PROMPTS_ERROR
    simp [List.count_cons, List.count_append, List.count_eq_zero_of_not_mem hno]
  · intro ps
    rw [hmain]
    have hno := (pause_emits_no_error_and_no_forward now m).2 ps
    simp [hno]
  · intro m2 now2 prompts2 fOk2 fMsg2 hne
    rcases hfil : prompts2.filter (fun p => !(m2.filteredPrompts.contains p.text)) with
      _ | ⟨a, as⟩
    · exact absurd hfil hne
    · unfold setWeightedPrompts
      rw [hfil]
      by_cases hs : m2.sessionExists <;> by_cases hf : fOk2 <;> simp [hs, hf]

/-- Witness for C5: one prompt whose text is in the filtered set (empty active set),
then an invocation with a fresh text (non-empty active set). -/
theorem empty_active_set_error_and_pause_witness :
    setWeightedPrompts 4 [⟨"p0", "Bad", 1⟩] true ""
        { init with playbackState := .playing, filteredPrompts := ["Bad"] }
      = (({ init with playbackState := .paused, filteredPrompts := ["Bad"] } : Model),
         [Effect.cancelScheduledValues .highShelfFilter 4,
          Effect.linearRampToValueAtTime .highShelfFilter 0 (4 + 1 / 2),
          Effect.errorEvent NO_ACTIVE_PROMPTS_ERROR,
          Effect.stateChanged .paused,
          Effect.cancelScheduledValues .outputNode 4,
          Effect.setValueAtTime .outputNode 0 4])
    ∧ Effect.errorCleared NO_ACTIVE_PROMPTS_ERROR
        ∈ (setWeightedPrompts 5 [⟨"p1", "Calm", 1⟩] true "" init).2 := by
  have h := empty_active_set_error_and_pause
    { init with playbackState := .playing, filteredPrompts := ["Bad"] } 4
    [⟨"p0", "Bad", 1⟩] true "" (by decide)
  refine ⟨?_, h.2.2.2 init 5 [⟨"p1", "Calm", 1⟩] true "" (by decide)⟩
  have h1 := h.1
  rw [h1]
  norm_num [LiveMusicHelper.pause, pauseCleanup, setPlaybackState, init]
  decide

/-- Helper: a `pause()` call either leaves the pending-timer list unchanged or
appends exactly one fade-out cleanup timer carrying the next fresh id. -/
theorem pause_timers_shape (now : ℚ) (m : Model) :
    (LiveMusicHelper.pause now m).1.timers = m.timers
    ∨ (LiveMusicHelper.pause now m).1.timers
        = m.timers ++ [⟨m.nextTimerId, now + FADE_DURATION, .pauseCleanup⟩] := by
  unfold LiveMusicHelper.pause
  by_cases hg : m.playbackState = PlaybackState.paused ∨ m.playbackState = PlaybackState.stopped
  · rw [if_pos hg]; exact Or.inl rfl
  · rw [if_neg hg]
    by_cases hf : m.fadeEnabled
    · right; simp [setPlaybackState, armTimer, hf]
    · left; simp [setPlaybackState, pauseCleanup, hf]

/-- Helper: a `setWeightedPrompts` invocation either leaves the pending-timer list
unchanged or (through its internal `pause()`) appends exactly one fade-out cleanup
timer carrying the next fresh id. -/
theorem setWeightedPrompts_timers_shape (now : ℚ) (prompts : List Prompt)
    (forwardOk : Bool) (failMsg : String) (m : Model) :
    (setWeightedPrompts now prompts forwardOk failMsg m).1.timers = m.timers
    ∨ (setWeightedPrompts now prompts forwardOk failMsg m).1.timers
        = m.timers ++ [⟨m.nextTimerId, now + FADE_DURATION, .pauseCleanup⟩] := by
  unfold setWeightedPrompts
  rcases hfil : prompts.filter (fun p => !(m.filteredPrompts.contains p.text)) with
    _ | ⟨a, as⟩
  · rw [hfil]
    simpa using pause_timers_shape now m
  · rw [hfil]
    by_cases hs : m.sessionExists <;> by_cases hf : forwardOk <;> simp [hs, hf]
    · simpa using pause_timers_shape now m

/-- Helper: when a fade-out timer with id `id` is pending, `play()` opens by
cancelling it (first effect), and afterwards no pending timer carries `id` any
more, so the event loop firing `id` later is a no-op: the deferred cleanup never
runs. -/
theorem play_cancels_pending_fade (now2 : ℚ) (prompts : List Prompt)
    (forwardOk : Bool) (failMsg : String) (mS : Model) (id : Nat)
    (hid : mS.fadeOutTimeoutId = some id)
    (hneq : mS.nextTimerId ≠ id) :
    (play now2 prompts forwardOk failMsg mS).2.head? = some (Effect.cancelTimeout id)
    ∧ (∀ t ∈ (play now2 prompts forwardOk failMsg mS).1.timers, t.id ≠ id)
    ∧ fireTimer id (play now2 prompts forwardOk failMsg mS).1
        = ((play now2 prompts forwardOk failMsg mS).1, []) := by
  have hhead : (play now2 prompts forwardOk failMsg mS).2.head?
      = some (Effect.cancelTimeout id) := by
    unfold play
    rw [hid]
    simp [clearTimer]
  have hplay1 : (play now2 prompts forwardOk failMsg mS).1
      = (setWeightedPrompts now2 prompts forwardOk failMsg
          { mS with
              timers := mS.timers.filter (fun t => t.id ≠ id)
              fadeOutTimeoutId := none
              playbackState := .loading
              sessionExists := true }).1 := by
    unfold play
    rw [hid]
    simp [clearTimer, setPlaybackState]
  have hmem : ∀ t ∈ (play now2 prompts forwardOk failMsg mS).1.timers, t.id ≠ id := by
    intro t ht
    rw [hplay1] at ht
    rcases setWeightedPrompts_timers_shape now2 prompts forwardOk failMsg
        { mS with
            timers := mS.timers.filter (fun t => t.id ≠ id)
            fadeOutTimeoutId := none
            playbackState := .loading
            sessionExists := true } with hsh | hsh <;> rw [hsh] at ht
    · simp only [List.mem_filter] at ht
      exact of_decide_eq_true ht.2
    · rcases List.mem_append.mp ht with hl | hr
      · simp only [List.mem_filter] at hl
        exact of_decide_eq_true hl.2
      · simp only [List.mem_singleton] at hr
        subst hr
        exact hneq
  refine ⟨hhead, hmem, ?_⟩
  unfold fireTimer
  rw [List.find?_eq_none.mpr (by intro t ht; simpa using hmem t ht)]

/-- Helper: in a timer list whose existing entries all have ids different from
`id`, the entry just appended with id `id` is the one `find?` locates, and
filtering `id` out returns exactly the original list. -/
theorem fresh_timer_find_and_filter (l : List PendingTimer) (id : Nat) (fa : ℚ)
    (a : TimerAction) (h : ∀ t ∈ l, t.id ≠ id) :
    (l ++ [(⟨id, fa, a⟩ : PendingTimer)]).find? (fun t => t.id = id)
        = some (⟨id, fa, a⟩ : PendingTimer)
    ∧ (l ++ [(⟨id, fa, a⟩ : PendingTimer)]).filter (fun t => t.id ≠ id) = l := by
  induction l with
  | nil => exact ⟨by simp [List.find?], by simp [List.filter]⟩
  | cons b bs ih =>
    have hb : b.id ≠ id := h b (List.mem_cons_self b bs)
    have hrest : ∀ t ∈ bs, t.id ≠ id := fun t ht => h t (List.mem_cons_of_mem b ht)
    obtain ⟨ih1, ih2⟩ := ih hrest
    constructor
    · simpa [List.find?_cons, hb] using ih1
    · simpa [List.filter_cons, hb] using ih2

/-- C6: with `fadeEnabled` true, both `stop()` and `pause()` ramp the Output Gain
down to near-zero (`1/10000`) over `FADE_DURATION = 5` seconds and defer cleanup
behind a cancellable one-shot timer: the call itself issues no Session command,
leaves the cursor untouched, and arms a timer for 5 s; only firing that timer
issues `session.stop()` (resp. `session.pause()`) and resets the cursor to `0`.
If `play()` runs before the timer fires — whether the pending timer is the
stop-cleanup or the pause-cleanup one — its first effect cancels the pending
timeout and afterwards no pending timer carries that id, so firing it is a no-op:
the Session never receives the deferred command and the cursor is not reset by it.
With `fadeEnabled` false, both `stop()` and `pause()` snap the gain to `0` and run
their cleanup synchronously inside the call. -/
theorem fade_defers_cleanup_and_play_cancels
    (m : Model) (now now2 : ℚ) (prompts : List Prompt) (forwardOk : Bool) (failMsg : String)
    (hfade : m.fadeEnabled = true)
    (hns : m.playbackState ≠ .stopped)
    (hnp : m.playbackState ≠ .paused)
    (hfresh : ∀ t ∈ m.timers, t.id ≠ m.nextTimerId) :
    LiveMusicHelper.stop now m
      = ({ m with
             playbackState := .stopped
             fadeOutTimeoutId := some m.nextTimerId
             timers := m.timers ++ [⟨m.nextTimerId, now + FADE_DURATION, .stopCleanup⟩]
             nextTimerId := m.nextTimerId + 1 },
         [Effect.stateChanged .stopped,
          Effect.cancelScheduledValues .outputNode now,
          Effect.setValueAtCurrent .outputNode now,
          Effect.linearRampToValueAtTime .outputNode (1 / 10000) (now + FADE_DURATION),
          Effect.armTimeout m.nextTimerId (FADE_DURATION * 1000)])
    ∧ fireTimer m.nextTimerId
        { m with
            playbackState := .stopped
            fadeOutTimeoutId := some m.nextTimerId
            timers := m.timers ++ [⟨m.nextTimerId, now + FADE_DURATION, .stopCleanup⟩]
            nextTimerId := m.nextTimerId + 1 }
      = ({ m with
             playbackState := .stopped
             nextStartTime := 0
             sessionExists := false
             fadeOutTimeoutId := none
             nextTimerId := m.nextTimerId + 1 },
         if m.sessionExists then [Effect.sessionStop] else [])
    ∧ (play now2 prompts forwardOk failMsg
        { m with
            playbackState := .stopped
            fadeOutTimeoutId := some m.nextTimerId
            timers := m.timers ++ [⟨m.nextTimerId, now + FADE_DURATION, .stopCleanup⟩]
            nextTimerId := m.nextTimerId + 1 }).2.head?
        = some (Effect.cancelTimeout m.nextTimerId)
    ∧ (∀ t ∈ (play now2 prompts forwardOk failMsg
        { m with
            playbackState := .stopped
            fadeOutTimeoutId := some m.nextTimerId
            timers := m.timers ++ [⟨m.nextTimerId, now + FADE_DURATION, .stopCleanup⟩]
            nextTimerId := m.nextTimerId + 1 }).1.timers, t.id ≠ m.nextTimerId)
    ∧ fireTimer m.nextTimerId
        (play now2 prompts forwardOk failMsg
          { m with
              playbackState := .stopped
              fadeOutTimeoutId := some m.nextTimerId
              timers := m.timers ++ [⟨m.nextTimerId, now + FADE_DURATION, .stopCleanup⟩]
              nextTimerId := m.nextTimerId + 1 }).1
      = ((play now2 prompts forwardOk failMsg
          { m with
              playbackState := .stopped
              fadeOutTimeoutId := some m.nextTimerId
              timers := m.timers ++ [⟨m.nextTimerId, now + FADE_DURATION, .stopCleanup⟩]
              nextTimerId := m.nextTimerId + 1 }).1, [])
    ∧ LiveMusicHelper.pause now m
      = ({ m with
             playbackState := .paused
             fadeOutTimeoutId := some m.nextTimerId
             timers := m.timers ++ [⟨m.nextTimerId, now + FADE_DURATION, .pauseCleanup⟩]
             nextTimerId := m.nextTimerId + 1 },
         [Effect.stateChanged .paused,
          Effect.cancelScheduledValues .outputNode now,
          Effect.setValueAtCurrent .outputNode now,
          Effect.linearRampToValueAtTime .outputNode (1 / 10000) (now + FADE_DURATION),
          Effect.armTimeout m.nextTimerId (FADE_DURATION * 1000)])
    ∧ fireTimer m.nextTimerId
        { m with
            playbackState := .paused
            fadeOutTimeoutId := some m.nextTimerId
            timers := m.timers ++ [⟨m.nextTimerId, now + FADE_DURATION, .pauseCleanup⟩]
            nextTimerId := m.nextTimerId + 1 }
      = ({ m with
             playbackState := .paused
             nextStartTime := 0
             fadeOutTimeoutId := none
             nextTimerId := m.nextTimerId + 1 },
         if m.sessionExists then [Effect.sessionPause] else [])
    ∧ (∀ mq : Model, mq.fadeEnabled = false → mq.playbackState ≠ .stopped →
        LiveMusicHelper.stop now mq
          = ({ mq with
                 playbackState := .stopped
                 nextStartTime := 0
                 sessionExists := false
                 fadeOutTimeoutId := none },
             [Effect.stateChanged .stopped,
              Effect.cancelScheduledValues .outputNode now,
              Effect.setValueAtTime .outputNode 0 now]
               ++ (if mq.sessionExists then [Effect.sessionStop] else [])))
    ∧ (play now2 prompts forwardOk failMsg
        { m with
            playbackState := .paused
            fadeOutTimeoutId := some m.nextTimerId
            timers := m.timers ++ [⟨m.nextTimerId, now + FADE_DURATION, .pauseCleanup⟩]
            nextTimerId := m.nextTimerId + 1 }).2.head?
        = some (Effect.cancelTimeout m.nextTimerId)
    ∧ (∀ t ∈ (play now2 prompts forwardOk failMsg
        { m with
            playbackState := .paused
            fadeOutTimeoutId := some m.nextTimerId
            timers := m.timers ++ [⟨m.nextTimerId, now + FADE_DURATION, .pauseCleanup⟩]
            nextTimerId := m.nextTimerId + 1 }).1.timers, t.id ≠ m.nextTimerId)
    ∧ fireTimer m.nextTimerId
        (play now2 prompts forwardOk failMsg
          { m with
              playbackState := .paused
              fadeOutTimeoutId := some m.nextTimerId
              timers := m.timers ++ [⟨m.nextTimerId, now + FADE_DURATION, .pauseCleanup⟩]
              nextTimerId := m.nextTimerId + 1 }).1
      = ((play now2 prompts forwardOk failMsg
          { m with
              playbackState := .paused
              fadeOutTimeoutId := some m.nextTimerId
              timers := m.timers ++ [⟨m.nextTimerId, now + FADE_DURATION, .pauseCleanup⟩]
              nextTimerId := m.nextTimerId + 1 }).1, [])
    ∧ (∀ mq : Model, mq.fadeEnabled = false → mq.playbackState ≠ .stopped →
        mq.playbackState ≠ .paused →
        LiveMusicHelper.pause now mq
          = ({ mq with
                 playbackState := .paused
                 nextStartTime := 0
                 fadeOutTimeoutId := none },
             [Effect.stateChanged .paused,
              Effect.cancelScheduledValues .outputNode now,
              Effect.setValueAtTime .outputNode 0 now]
               ++ (if mq.sessionExists then [Effect.sessionPause] else []))) := by
  have hguardp : ¬ (m.playbackState = PlaybackState.paused
      ∨ m.playbackState = PlaybackState.stopped) := by
    rintro (h | h)
    · exact hnp h
    · exact hns h
  have hffS := fresh_timer_find_and_filter m.timers m.nextTimerId
    (now + FADE_DURATION) .stopCleanup hfresh
  have hffP := fresh_timer_find_and_filter m.timers m.nextTimerId
    (now + FADE_DURATION) .pauseCleanup hfresh
  refine ⟨?_, ?_, ?_, ?_, ?_, ?_, ?_, ?_, ?_, ?_, ?_, ?_⟩
  · unfold LiveMusicHelper.stop
    rw [if_neg hns]
    simp [setPlaybackState, armTimer, hfade]
  · unfold fireTimer
    simp only [hffS.1]
    simp [runTimerAction, stopCleanup, hffS.2]
    exact fun a ha => hfresh a ha
  · exact (play_cancels_pending_fade now2 prompts forwardOk failMsg _ m.nextTimerId rfl
      (Nat.succ_ne_self m.nextTimerId)).1
  · exact (play_cancels_pending_fade now2 prompts forwardOk failMsg _ m.nextTimerId rfl
      (Nat.succ_ne_self m.nextTimerId)).2.1
  · exact (play_cancels_pending_fade now2 prompts forwardOk failMsg _ m.nextTimerId rfl
      (Nat.succ_ne_self m.nextTimerId)).2.2
  · unfold LiveMusicHelper.pause
    rw [if_neg hguardp]
    simp [setPlaybackState, armTimer, hfade]
  · unfold fireTimer
    simp only [hffP.1]
    simp [runTimerAction, pauseCleanup, hffP.2]
    exact fun a ha => hfresh a ha
  · intro mq h1 h2
    unfold LiveMusicHelper.stop
    rw [if_neg h2]
    by_cases hs : mq.sessionExists <;>
      simp [setPlaybackState, stopCleanup, h1, hs]
  · exact (play_cancels_pending_fade now2 prompts forwardOk failMsg _ m.nextTimerId rfl
      (Nat.succ_ne_self m.nextTimerId)).1
  · exact (play_cancels_pending_fade now2 prompts forwardOk failMsg _ m.nextTimerId rfl
      (Nat.succ_ne_self m.nextTimerId)).2.1
  · exact (play_cancels_pending_fade now2 prompts forwardOk failMsg _ m.nextTimerId rfl
      (Nat.succ_ne_self m.nextTimerId)).2.2
  · intro mq h1 h2 h3
    unfold LiveMusicHelper.pause
    rw [if_neg (by simp [h2, h3])]
    by_cases hs : mq.sessionExists <;>
      simp [setPlaybackState, pauseCleanup, h1, hs]

/-- Witness for C6 at a concrete state: `fadeEnabled` on, session live, cursor `7`,
stop (resp. pause) at clock `10`, play again at clock `12` — covering the
cancellation of both deferred cleanups — plus a synchronous `pause()` with fading
disabled. -/
theorem fade_defers_cleanup_and_play_cancels_witness :
    LiveMusicHelper.stop 10 ⟨.playing, 7, 2, true, [], true, none, [], 1⟩
      = ((⟨.stopped, 7, 2, true, [], true, some 1,
           [⟨1, 10 + FADE_DURATION, .stopCleanup⟩], 2⟩ : Model),
         [Effect.stateChanged .stopped,
          Effect.cancelScheduledValues .outputNode 10,
          Effect.setValueAtCurrent .outputNode 10,
          Effect.linearRampToValueAtTime .outputNode (1 / 10000) (10 + FADE_DURATION),
          Effect.armTimeout 1 (FADE_DURATION * 1000)])
    ∧ fireTimer 1 ⟨.stopped, 7, 2, true, [], true, some 1,
        [⟨1, 10 + FADE_DURATION, .stopCleanup⟩], 2⟩
      = ((⟨.stopped, 0, 2, true, [], false, none, [], 2⟩ : Model), [Effect.sessionStop])
    ∧ (play 12 [⟨"p1", "Calm", 1⟩] true ""
        ⟨.stopped, 7, 2, true, [], true, some 1,
          [⟨1, 10 + FADE_DURATION, .stopCleanup⟩], 2⟩).2.head?
        = some (Effect.cancelTimeout 1)
    ∧ fireTimer 1 (play 12 [⟨"p1", "Calm", 1⟩] true ""
        ⟨.stopped, 7, 2, true, [], true, some 1,
          [⟨1, 10 + FADE_DURATION, .stopCleanup⟩], 2⟩).1
      = ((play 12 [⟨"p1", "Calm", 1⟩] true ""
          ⟨.stopped, 7, 2, true, [], true, some 1,
            [⟨1, 10 + FADE_DURATION, .stopCleanup⟩], 2⟩).1, [])
    ∧ (play 12 [⟨"p1", "Calm", 1⟩] true ""
        ⟨.paused, 7, 2, true, [], true, some 1,
          [⟨1, 10 + FADE_DURATION, .pauseCleanup⟩], 2⟩).2.head?
        = some (Effect.cancelTimeout 1)
    ∧ fireTimer 1 (play 12 [⟨"p1", "Calm", 1⟩] true ""
        ⟨.paused, 7, 2, true, [], true, some 1,
          [⟨1, 10 + FADE_DURATION, .pauseCleanup⟩], 2⟩).1
      = ((play 12 [⟨"p1", "Calm", 1⟩] true ""
          ⟨.paused, 7, 2, true, [], true, some 1,
            [⟨1, 10 + FADE_DURATION, .pauseCleanup⟩], 2⟩).1, [])
    ∧ LiveMusicHelper.pause 10 ⟨.playing, 9, 2, false, [], true, none, [], 1⟩
      = ((⟨.paused, 0, 2, false, [], true, none, [], 1⟩ : Model),
         [Effect.stateChanged .paused,
          Effect.cancelScheduledValues .outputNode 10,
          Effect.setValueAtTime .outputNode 0 10,
          Effect.sessionPause]) := by
  have h := fade_defers_cleanup_and_play_cancels
    ⟨.playing, 7, 2, true, [], true, none, [], 1⟩ 10 12
    [⟨"p1", "Calm", 1⟩] true "" rfl (by decide) (by decide) (by simp)
  exact ⟨h.1, h.2.1, h.2.2.1, h.2.2.2.2.1,
    h.2.2.2.2.2.2.2.2.1,
    h.2.2.2.2.2.2.2.2.2.2.1,
    h.2.2.2.2.2.2.2.2.2.2.2 ⟨.playing, 9, 2, false, [], true, none, [], 1⟩
      rfl (by decide) (by decide)⟩

/-- C7: a decoded buffer processed while the state is `playing` or `loading` with a
zero (unset) cursor sets the cursor to `now + bufferTime` (the buffer is then
scheduled there, advancing the cursor by its duration) and arms a one-shot timer
for `bufferTime` seconds (`bufferTime * 1000` ms, firing at `now + bufferTime`).
The timer's closure moves `loading` to `playing` only if the state is still
`loading` at fire time, and changes nothing otherwise: both guards are stated for
an arbitrary fire-time state `m2`, and the firing of the actual armed timer is
computed for this call's result in both the still-`loading` and the `playing`
case. -/
theorem zero_cursor_establishes_horizon_and_arms_promotion
    (dec : AudioChunk → ℚ) (m : Model) (now : ℚ) (c : AudioChunk) (cs : List AudioChunk)
    (hstate : m.playbackState = .playing ∨ m.playbackState = .loading)
    (hz : m.nextStartTime = 0)
    (hbuf : 0 ≤ m.bufferTime)
    (hfresh : ∀ t ∈ m.timers, t.id ≠ m.nextTimerId) :
    processAudioChunks dec now (c :: cs) m
      = some ({ m with
                  nextStartTime := now + m.bufferTime + dec c
                  timers := m.timers ++ [⟨m.nextTimerId, now + m.bufferTime, .bufferPromotion⟩]
                  nextTimerId := m.nextTimerId + 1 },
              [Effect.armTimeout m.nextTimerId (m.bufferTime * 1000),
               Effect.sourceStart (now + m.bufferTime) (dec c)])
    ∧ (∀ m2 : Model, m2.playbackState = .loading →
        runTimerAction .bufferPromotion m2
          = ({ m2 with playbackState := .playing }, [Effect.stateChanged .playing]))
    ∧ (∀ m2 : Model, m2.playbackState ≠ .loading →
        runTimerAction .bufferPromotion m2 = (m2, []))
    ∧ (m.playbackState = .loading →
        fireTimer m.nextTimerId
          { m with
              nextStartTime := now + m.bufferTime + dec c
              timers := m.timers ++ [⟨m.nextTimerId, now + m.bufferTime, .bufferPromotion⟩]
              nextTimerId := m.nextTimerId + 1 }
          = ({ m with
                 playbackState := .playing
                 nextStartTime := now + m.bufferTime + dec c
                 nextTimerId := m.nextTimerId + 1 },
             [Effect.stateChanged .playing]))
    ∧ (m.playbackState = .playing →
        fireTimer m.nextTimerId
          { m with
              nextStartTime := now + m.bufferTime + dec c
              timers := m.timers ++ [⟨m.nextTimerId, now + m.bufferTime, .bufferPromotion⟩]
              nextTimerId := m.nextTimerId + 1 }
          = ({ m with
                 nextStartTime := now + m.bufferTime + dec c
                 nextTimerId := m.nextTimerId + 1 }, [])) := by
  have hguard : ¬ (m.playbackState = PlaybackState.paused
      ∨ m.playbackState = PlaybackState.stopped) := by
    rcases hstate with h | h <;> simp [h]
  have hnl : ¬ (now + m.bufferTime < now) := by linarith
  have hff := fresh_timer_find_and_filter m.timers m.nextTimerId
    (now + m.bufferTime) .bufferPromotion hfresh
  refine ⟨?_, ?_, ?_, ?_, ?_⟩
  · unfold processAudioChunks
    rw [if_neg hguard]
    simp [hz, armTimer, hnl]
  · intro m2 h2
    simp [runTimerAction, h2, setPlaybackState]
  · intro m2 h2
    simp [runTimerAction, h2]
  · intro hld
    unfold fireTimer
    simp only [hff.1]
    simp [runTimerAction, hld, setPlaybackState, hff.2]
    exact fun a ha => hfresh a ha
  · intro hpl
    unfold fireTimer
    simp only [hff.1]
    simp [runTimerAction, hpl, hff.2]
    exact fun a ha => hfresh a ha

/-- Witness for C7: zero cursor at clock `10` with `bufferTime = 2`; the armed
timer fired while still `loading` promotes to `playing`; the promotion closure run
in a `paused` state changes nothing. -/
theorem zero_cursor_establishes_horizon_and_arms_promotion_witness :
    processAudioChunks (fun _ => 1) 10 [⟨"a"⟩] ⟨.loading, 0, 2, false, [], true, none, [], 1⟩
      = some ((⟨.loading, 10 + 2 + 1, 2, false, [], true, none,
                [⟨1, 10 + 2, .bufferPromotion⟩], 2⟩ : Model),
              [Effect.armTimeout 1 (2 * 1000), Effect.sourceStart (10 + 2) 1])
    ∧ fireTimer 1 ⟨.loading, 10 + 2 + 1, 2, false, [], true, none,
        [⟨1, 10 + 2, .bufferPromotion⟩], 2⟩
      = ((⟨.playing, 10 + 2 + 1, 2, false, [], true, none, [], 2⟩ : Model),
         [Effect.stateChanged .playing])
    ∧ runTimerAction .bufferPromotion ⟨.paused, 3, 2, false, [], true, none, [], 1⟩
      = ((⟨.paused, 3, 2, false, [], true, none, [], 1⟩ : Model), []) := by
  have h := zero_cursor_establishes_horizon_and_arms_promotion (fun _ => 1)
    ⟨.loading, 0, 2, false, [], true, none, [], 1⟩ 10 ⟨"a"⟩ []
    (Or.inr rfl) rfl (by norm_num) (by simp)
  exact ⟨h.1, h.2.2.2.1 rfl,
    h.2.2.1 ⟨.paused, 3, 2, false, [], true, none, [], 1⟩ (by decide)⟩

/-- C8: on every `setWeightedPrompts` invocation, the first two effects — before
the empty-set check, the session check and the forward attempt, in all branches —
are cancelling the Tone-Shaping (high-shelf) Filter's pending gain automation at
`now` and ramping its gain linearly to `-18` (dB) over `0.5` seconds when the text
"Dystopian Industrial" is in the active set, to `0` otherwise. -/
theorem tone_shaping_recomputed_every_invocation
    (m : Model) (now : ℚ) (prompts : List Prompt) (forwardOk : Bool) (failMsg : String) :
    (setWeightedPrompts now prompts forwardOk failMsg m).2.take 2
      = [Effect.cancelScheduledValues .highShelfFilter now,
         Effect.linearRampToValueAtTime .highShelfFilter
           (if (prompts.filter (fun p => !(m.filteredPrompts.contains p.text))).any
               (fun p => p.text = "Dystopian Industrial") then -18 else 0)
           (now + 1 / 2)] := by
  unfold setWeightedPrompts
  rcases hfil : prompts.filter (fun p => !(m.filteredPrompts.contains p.text)) with
    _ | ⟨a, as⟩
  · rw [hfil]
    simp
  · rw [hfil]
    by_cases hs : m.sessionExists <;> by_cases hf : forwardOk <;>
      simp [hs, hf, List.find?_isSome]

/-- C9: a batch of chunks delivered in one Session message is processed using only
its first element: the outcome is identical for any tail, at most one buffer is
ever scheduled per batch, and any scheduled buffer is the decode of the first
chunk (its duration is `dec c`); the remaining chunks contribute nothing. -/
theorem only_first_chunk_of_batch_used
    (dec : AudioChunk → ℚ) (now : ℚ) (m : Model) (c : AudioChunk)
    (rest rest2 : List AudioChunk) :
    processAudioChunks dec now (c :: rest) m = processAudioChunks dec now (c :: rest2) m
    ∧ ((processAudioChunks dec now (c :: rest) m).getD (m, [])).2.countP
        (fun e => match e with
          | Effect.sourceStart _ _ => true
          | _ => false) ≤ 1
    ∧ (∀ t d, Effect.sourceStart t d ∈ ((processAudioChunks dec now (c :: rest) m).getD (m, [])).2
        → d = dec c) := by
  refine ⟨rfl, ?_, ?_⟩
  · unfold processAudioChunks
    simp only [armTimer, setPlaybackState]
    split_ifs <;>
      simp [List.countP_cons, List.countP_append]
  · intro t d hmem
    unfold processAudioChunks at hmem
    simp only [armTimer, setPlaybackState] at hmem
    split_ifs at hmem <;> simp_all

/-- Witness for C9: the same result with and without a second chunk in the batch,
and the single scheduled buffer carries the first chunk's duration. -/
theorem only_first_chunk_of_batch_used_witness :
    processAudioChunks (fun ch => if ch.data = "a" then 1 else 9) 10 [⟨"a"⟩, ⟨"zzz"⟩]
        ⟨.playing, 12, 2, false, [], true, none, [], 1⟩
      = processAudioChunks (fun ch => if ch.data = "a" then 1 else 9) 10 [⟨"a"⟩]
          ⟨.playing, 12, 2, false, [], true, none, [], 1⟩
    ∧ (∀ t d, Effect.sourceStart t d ∈
        ((processAudioChunks (fun ch => if ch.data = "a" then 1 else 9) 10 [⟨"a"⟩, ⟨"zzz"⟩]
          ⟨.playing, 12, 2, false, [], true, none, [], 1⟩).getD
            (⟨.playing, 12, 2, false, [], true, none, [], 1⟩, [])).2
        → d = (if ("a" : String) = "a" then (1 : ℚ) else 9)) := by
  have h := only_first_chunk_of_batch_used (fun ch => if ch.data = "a" then 1 else 9) 10
    ⟨.playing, 12, 2, false, [], true, none, [], 1⟩ ⟨"a"⟩ [⟨"zzz"⟩] []
  exact ⟨h.1, h.2.2⟩

/-- C10: whenever the active set is non-empty, the "error-cleared" signal carrying
the no-active-prompts message is dispatched unconditionally at position 2 of the
invocation's effect list — immediately after the two tone-shaping effects and
before the session-existence check and the forward attempt — for every session
state and every forward outcome, including when no session exists and when the
forward fails. -/
theorem error_cleared_dispatched_unconditionally
    (m : Model) (now : ℚ) (prompts : List Prompt) (forwardOk : Bool) (failMsg : String)
    (hne : prompts.filter (fun p => !(m.filteredPrompts.contains p.text)) ≠ []) :
    (setWeightedPrompts now prompts forwardOk failMsg m).2.get? 2
      = some (Effect.errorCleared NO_ACTIVE_PROMPTS_ERROR)
    ∧ Effect.errorCleared NO_ACTIVE_PROMPTS_ERROR
        ∈ (setWeightedPrompts now prompts forwardOk failMsg m).2 := by
  rcases hfil : prompts.filter (fun p => !(m.filteredPrompts.contains p.text)) with
    _ | ⟨a, as⟩
  · exact absurd hfil hne
  · unfold setWeightedPrompts
    rw [hfil]
    by_cases hs : m.sessionExists <;> by_cases hf : forwardOk <;> simp [hs, hf]

/-- Witness for C10: cleared signal at position 2 both with no session at all and
with a session whose forward rejects. -/
theorem error_cleared_dispatched_unconditionally_witness :
    (setWeightedPrompts 3 [⟨"p1", "Calm", 1⟩] true "" init).2.get? 2
      = some (Effect.errorCleared NO_ACTIVE_PROMPTS_ERROR)
    ∧ (setWeightedPrompts 3 [⟨"p1", "Calm", 1⟩] false "boom"
        ⟨.playing, 0, 2, false, [], true, none, [], 1⟩).2.get? 2
      = some (Effect.errorCleared NO_ACTIVE_PROMPTS_ERROR) :=
  ⟨(error_cleared_dispatched_unconditionally init 3 [⟨"p1", "Calm", 1⟩] true ""
      (by decide)).1,
   (error_cleared_dispatched_unconditionally ⟨.playing, 0, 2, false, [], true, none, [], 1⟩
      3 [⟨"p1", "Calm", 1⟩] false "boom" (by decide)).1⟩

/-- Witness for C8: with "Dystopian Industrial" active the ramp target is `-18`. -/
theorem tone_shaping_recomputed_every_invocation_witness :
    (setWeightedPrompts 6 [⟨"p1", "Dystopian Industrial", 1⟩] true "" init).2.take 2
      = [Effect.cancelScheduledValues .highShelfFilter 6,
         Effect.linearRampToValueAtTime .highShelfFilter (-18) (6 + 1 / 2)] := by
  have h := tone_shaping_recomputed_every_invocation init 6
    [⟨"p1", "Dystopian Industrial", 1⟩] true ""
  simpa [init] using h
